import Mathlib

namespace RustyPng

/-- CRC-32 single-bit step (reflected polynomial 0xEDB88320), modelled from the spec:
the external crc32fast collaborator implements standard CRC-32. -/
def crc32UpdateBit (crc : Nat) : Nat :=
  if crc % 2 = 1 then (crc / 2) ^^^ 0xEDB88320 else crc / 2

/-- CRC-32 update with one input byte. -/
def crc32UpdateByte (crc b : Nat) : Nat :=
  (List.range 8).foldl (fun c _ => crc32UpdateBit c) (crc ^^^ b)

/-- CRC-32 over a byte list, standard IEEE polynomial, as computed by crc32fast. -/
def crc32 (data : List Nat) : Nat :=
  (data.foldl crc32UpdateByte 0xFFFFFFFF) ^^^ 0xFFFFFFFF

/-- Calibration of the CRC-32 model: the well-known checksum of the four IEND
type-tag bytes of an empty IEND chunk. -/
theorem crc32_iend_known_value : crc32 [73, 69, 78, 68] = 0xAE426082 := by decide

/-- The error taxonomy of src/png/decode_error.rs. `InvalidScanlineFilter` is declared
there only implicitly (it is constructed in src/png/mod.rs); it is included as used. -/
inductive DecodeError where
  | BadFilePath (s : String)
  | FailedToOpenFile (s : String)
  | FailedToReadFile (s : String)
  | InvalidSignature
  | InvalidStructure
  | UnsupportedFeature (s : String)
  | FailedChecksum
  | FailedDecoding
  | InvalidHeader
  | InvalidScanlineFilter
deriving DecidableEq, Repr

/-- ChunkType from src/png/chunk.rs. -/
inductive ChunkType where
  | IHDR
  | IDAT
  | IEND
  | PLTE
  | Unknown
deriving DecidableEq, Repr

/-- ChunkType::from_bytes. Byte values: IHDR = [73,72,68,82], IDAT = [73,68,65,84],
IEND = [73,69,78,68], PLTE = [80,76,84,69]. -/
def ChunkType.from_bytes (bytes : List Nat) : ChunkType :=
  if bytes = [73, 72, 68, 82] then .IHDR
  else if bytes = [73, 68, 65, 84] then .IDAT
  else if bytes = [73, 69, 78, 68] then .IEND
  else if bytes = [80, 76, 84, 69] then .PLTE
  else .Unknown

/-- ChunkType::to_bytes. The catch-all arm returns the placeholder bytes of the
string of four lowercase letters a, that is [97,97,97,97]. -/
def ChunkType.to_bytes (t : ChunkType) : List Nat :=
  match t with
  | .IHDR => [73, 72, 68, 82]
  | .IDAT => [73, 68, 65, 84]
  | .IEND => [73, 69, 78, 68]
  | .PLTE => [80, 76, 84, 69]
  | .Unknown => [97, 97, 97, 97]

/-- The Chunk record of src/png/chunk.rs. -/
structure Chunk where
  length : Nat
  chunk_type : ChunkType
  chunk_data : List Nat
  crc : Nat
deriving DecidableEq, Repr

/-- Chunk::crc_is_valid: the CRC is computed over the canonical bytes of the parsed
chunk type followed by the chunk data, and compared with the stored crc field. -/
def Chunk.crc_is_valid (c : Chunk) : Bool :=
  crc32 (c.chunk_type.to_bytes ++ c.chunk_data) == c.crc

/-- Reading `n` bytes at offset `pos`; Rust slice indexing panics when the range
runs past the end of the buffer, modelled by `none`. -/
def readBytes (bytes : List Nat) (pos n : Nat) : Option (List Nat) :=
  if pos + n ≤ bytes.length then some ((bytes.drop pos).take n) else none

/-- u32::from_be_bytes on a 4-byte list. -/
def beU32 (l : List Nat) : Nat :=
  match l with
  | [b0, b1, b2, b3] => ((b0 * 256 + b1) * 256 + b2) * 256 + b3
  | _ => 0

/-- Big-endian 4-byte encoding of a u32 value. -/
def u32be (n : Nat) : List Nat :=
  [n / 16777216 % 256, n / 65536 % 256, n / 256 % 256, n % 256]

/-- ChunkReader::validate_file: length floor of 57, then the 8-byte PNG signature,
then the IHDR length field and type tag. -/
def validate_file (bytes : List Nat) : Except DecodeError Unit :=
  if bytes.length < 57 then .error .InvalidStructure
  else if bytes.take 8 ≠ [137, 80, 78, 71, 13, 10, 26, 10] then .error .InvalidSignature
  else if (bytes.drop 8).take 4 ≠ [0, 0, 0, 13] ∨ (bytes.drop 12).take 4 ≠ [73, 72, 68, 82] then
    .error .InvalidHeader
  else .ok ()

/-- ChunkReader::read_into_vec: the chunk loop. Each iteration reads a 4-byte length,
a 4-byte type tag, `length` payload bytes and a 4-byte CRC, then checks PLTE first,
then the CRC, and appends every chunk except IEND. `none` models a Rust panic from
out-of-bounds indexing. The loop advances by at least 12 bytes per iteration, so a
fuel of `bytes.length + 1` is always sufficient when starting at position 33. -/
def read_into_vec (bytes : List Nat) :
    Nat → Nat → List Chunk → Option (Except DecodeError (List Chunk))
  | 0, _, _ => none
  | fuel + 1, pos, chunks =>
    if pos < bytes.length then
      match readBytes bytes pos 4 with
      | none => none
      | some lenB =>
        match readBytes bytes (pos + 4) 4 with
        | none => none
        | some tagB =>
          let length := beU32 lenB
          match readBytes bytes (pos + 8) length with
          | none => none
          | some data =>
            match readBytes bytes (pos + 8 + length) 4 with
            | none => none
            | some crcB =>
              let chunk : Chunk := ⟨length, ChunkType.from_bytes tagB, data, beU32 crcB⟩
              if chunk.chunk_type = ChunkType.PLTE then
                some (.error (.UnsupportedFeature "PLTE chunks are not yet supported"))
              else if chunk.crc_is_valid then
                read_into_vec bytes fuel (pos + 12 + length)
                  (if chunk.chunk_type = ChunkType.IEND then chunks else chunks ++ [chunk])
              else some (.error .FailedChecksum)
    else some (.ok chunks)

/-- ImageMetadata from src/png/mod.rs. -/
structure ImageMetadata where
  width : Nat
  height : Nat
  bit_depth : Nat
  color_type : Nat
  compression_method : Nat
  filter_method : Nat
  interlace_method : Nat
deriving DecidableEq, Repr

/-- ChunkReader::read_metadata: a plain fixed-offset read of the IHDR payload
(bytes 16 through 28); it performs no validation of any field. -/
def read_metadata (bytes : List Nat) : ImageMetadata :=
  { width := beU32 ((bytes.drop 16).take 4)
    height := beU32 ((bytes.drop 20).take 4)
    bit_depth := bytes.getD 24 0
    color_type := bytes.getD 25 0
    compression_method := bytes.getD 26 0
    filter_method := bytes.getD 27 0
    interlace_method := bytes.getD 28 0 }

/-- PNG::get_number_of_channels: the color-type match of src/png/mod.rs. -/
def get_number_of_channels (md : ImageMetadata) : Except DecodeError Nat :=
  if md.color_type = 0 then .ok 1
  else if md.color_type = 2 then
    if md.bit_depth = 8 ∨ md.bit_depth = 16 then .ok 3 else .error .InvalidStructure
  else if md.color_type = 3 then .error (.UnsupportedFeature "PLTE chunks are not yet supported")
  else if md.color_type = 4 then
    if md.bit_depth = 8 ∨ md.bit_depth = 16 then .ok 2 else .error .InvalidStructure
  else if md.color_type = 6 then
    if md.bit_depth = 8 ∨ md.bit_depth = 16 then .ok 4 else .error .InvalidStructure
  else .error .InvalidStructure

/-- LastPixel from src/png/mod.rs: the four neighbor lookups a (left), b (above),
c (above-left) and d (above-right), each a 4-byte slice. -/
structure LastPixel where
  a : List Nat
  b : List Nat
  c : List Nat
  d : List Nat
deriving DecidableEq, Repr

/-- The inner get_pixel of LastPixel::from_decoded: zero for negative coordinates,
otherwise the 4-byte slice of the decoded output buffer at
byte_index = (x + y * width) * 4; an out-of-range slice is a Rust panic (`none`). -/
def get_pixel (decoded : List Nat) (x y width : Int) : Option (List Nat) :=
  if x < 0 ∨ y < 0 then some [0, 0, 0, 0]
  else
    let byte_index := (x + y * width).toNat * 4
    if byte_index + 4 ≤ decoded.length then some ((decoded.drop byte_index).take 4)
    else none

/-- LastPixel::from_decoded: neighbor lookups into the already-produced canonical
output buffer, at the fixed 4-byte-per-pixel stride of get_pixel. -/
def LastPixel.from_decoded (decoded : List Nat) (x y width : Nat) : Option LastPixel :=
  match get_pixel decoded ((x : Int) - 1) y width,
        get_pixel decoded x ((y : Int) - 1) width,
        get_pixel decoded ((x : Int) - 1) ((y : Int) - 1) width,
        get_pixel decoded ((x : Int) + 1) ((y : Int) - 1) width with
  | some a, some b, some c, some d => some ⟨a, b, c, d⟩
  | _, _, _, _ => none

/-- LastPixel::paeth: i16 arithmetic on channel i of the a, b and c neighbors, and
the final `as u8` truncation. -/
def LastPixel.paeth (lp : LastPixel) (i : Nat) : Nat :=
  let a : Int := lp.a.getD i 0
  let b : Int := lp.b.getD i 0
  let c : Int := lp.c.getD i 0
  let p := a + b - c
  let p_a := (p - a).natAbs
  let p_b := (p - b).natAbs
  let p_c := (p - c).natAbs
  if p_a ≤ p_b ∧ p_a ≤ p_c then (a % 256).toNat
  else if p_b ≤ p_c then (b % 256).toNat
  else (c % 256).toNat

/-- One arm of the filter match in PNG::filter_decoded_data for channel i: the
wrapping u8 addition of the selected predictor. Filter values 5 and above are
rejected before this function is reached. -/
def defilterByte (filt : Nat) (lp : LastPixel) (i v : Nat) : Nat :=
  match filt with
  | 0 => v
  | 1 => (v + lp.a.getD i 0) % 256
  | 2 => (v + lp.b.getD i 0) % 256
  | 3 => (v + ((lp.a.getD i 0 + lp.b.getD i 0) / 2) % 256) % 256
  | _ => (v + lp.paeth i) % 256

/-- The i-loop of PNG::filter_decoded_data applied to the four bytes of the
already-reordered bgra pixel. -/
def defilter4 (filt : Nat) (lp : LastPixel) (bgra : List Nat) : List Nat :=
  match bgra with
  | [v0, v1, v2, v3] =>
    [defilterByte filt lp 0 v0, defilterByte filt lp 1 v1,
     defilterByte filt lp 2 v2, defilterByte filt lp 3 v3]
  | other => other

/-- The body of the x-loop of PNG::filter_decoded_data: neighbor lookup from the
output buffer, the pixel slice of the scanline, the BGRA reorder (indexing
pixel[2], pixel[1], pixel[0], which panics when bytes_per_pixel < 3), alpha from
pixel[3] for color type 6 and the constant 255 otherwise, then the filter match
keyed on scanline[0], then the four defiltered bytes are appended to the output. -/
def pixelStep (ct w bpp : Nat) (scanline : List Nat) (y x : Nat) (finalized : List Nat) :
    Option (Except DecodeError (List Nat)) :=
  match LastPixel.from_decoded finalized x y w with
  | none => none
  | some lp =>
    if x * bpp + 1 + bpp ≤ scanline.length then
      let pixel := (scanline.drop (x * bpp + 1)).take bpp
      match pixel.get? 2, pixel.get? 1, pixel.get? 0 with
      | some p2, some p1, some p0 =>
        match (if ct = 6 then pixel.get? 3 else some 255) with
        | none => none
        | some al =>
          let filt := scanline.getD 0 0
          if filt ≥ 5 then some (.error .InvalidScanlineFilter)
          else some (.ok (finalized ++ defilter4 filt lp [p2, p1, p0, al]))
      | _, _, _ => none
    else none

/-- PNG::filter_decoded_data: resolve bytes_per_pixel, then the y-loop over
scanlines of width 1 + width * bytes_per_pixel and the x-loop over pixels.
`none` models a Rust panic, `some (error e)` an early return of a DecodeError. -/
def filter_decoded_data (md : ImageMetadata) (unfiltered : List Nat) :
    Option (Except DecodeError (List Nat)) :=
  match get_number_of_channels md with
  | .error e => some (.error e)
  | .ok bpp =>
    let sw := 1 + md.width * bpp
    (List.range md.height).foldl
      (fun acc y =>
        match acc with
        | some (.ok finalized) =>
          if (y + 1) * sw ≤ unfiltered.length then
            let scanline := (unfiltered.drop (y * sw)).take sw
            (List.range md.width).foldl
              (fun acc2 x =>
                match acc2 with
                | some (.ok fin) => pixelStep md.color_type md.width bpp scanline y x fin
                | other => other)
              (some (.ok finalized))
          else none
        | other => other)
      (some (.ok []))

/-- The decode pipeline of PNG::from_file_path and PNG::get_decoded_chunk_data with
file reading stripped: validate the buffer, read the chunk stream from position 33,
read the metadata, concatenate IDAT payloads in order, hand them to the external
decompression collaborator `inflate` (a decompression failure yields FailedDecoding),
and defilter. -/
def decode_pipeline (bytes : List Nat) (inflate : List Nat → Option (List Nat)) :
    Option (Except DecodeError (List Nat)) :=
  match validate_file bytes with
  | .error e => some (.error e)
  | .ok _ =>
    match read_into_vec bytes (bytes.length + 1) 33 [] with
    | none => none
    | some (.error e) => some (.error e)
    | some (.ok chunks) =>
      let md := read_metadata bytes
      let data := chunks.foldl
        (fun acc c => if c.chunk_type = ChunkType.IDAT then acc ++ c.chunk_data else acc) []
      match inflate data with
      | none => some (.error .FailedDecoding)
      | some decoded => filter_decoded_data md decoded

/-- Modelled from the spec: the Paeth predictor exactly as §4.5 words it — compute
p = a + b − c in a wider-than-8-bit type, the distances to a, b and c, and select
with ties favoring a, then b, then c. Stated over Int to compare with the code's
LastPixel::paeth. -/
def paethSpec (a b c : Nat) : Nat :=
  let p : Int := (a : Int) + b - c
  let p_a := (p - a).natAbs
  let p_b := (p - b).natAbs
  let p_c := (p - c).natAbs
  if p_a ≤ p_b ∧ p_a ≤ p_c then a
  else if p_b ≤ p_c then b
  else c

lemma readBytes_eq_some {bytes : List Nat} {pos n : Nat} (h : pos + n ≤ bytes.length) :
    readBytes bytes pos n = some ((bytes.drop pos).take n) := by
  unfold readBytes; rw [if_pos h]

lemma readBytes_eq_none {bytes : List Nat} {pos n : Nat} (h : bytes.length < pos + n) :
    readBytes bytes pos n = none := by
  unfold readBytes; rw [if_neg (by omega)]

/-- One in-bounds iteration of the chunk loop, written out. -/
lemma read_into_vec_step (bytes : List Nat) (fuel pos : Nat) (chunks : List Chunk)
    (h1 : pos < bytes.length)
    (h2 : pos + 12 + beU32 ((bytes.drop pos).take 4) ≤ bytes.length) :
    read_into_vec bytes (fuel + 1) pos chunks =
      (let length := beU32 ((bytes.drop pos).take 4)
       let chunk : Chunk := ⟨length, ChunkType.from_bytes ((bytes.drop (pos + 4)).take 4),
         (bytes.drop (pos + 8)).take length, beU32 ((bytes.drop (pos + 8 + length)).take 4)⟩
       if chunk.chunk_type = ChunkType.PLTE then
         some (.error (.UnsupportedFeature "PLTE chunks are not yet supported"))
       else if chunk.crc_is_valid then
         read_into_vec bytes fuel (pos + 12 + length)
           (if chunk.chunk_type = ChunkType.IEND then chunks else chunks ++ [chunk])
       else some (.error .FailedChecksum)) := by
  have r1 : readBytes bytes pos 4 = some ((bytes.drop pos).take 4) :=
    readBytes_eq_some (by omega)
  have r2 : readBytes bytes (pos + 4) 4 = some ((bytes.drop (pos + 4)).take 4) :=
    readBytes_eq_some (by omega)
  have r3 : readBytes bytes (pos + 8) (beU32 ((bytes.drop pos).take 4))
      = some ((bytes.drop (pos + 8)).take (beU32 ((bytes.drop pos).take 4))) :=
    readBytes_eq_some (by omega)
  have r4 : readBytes bytes (pos + 8 + beU32 ((bytes.drop pos).take 4)) 4
      = some ((bytes.drop (pos + 8 + beU32 ((bytes.drop pos).take 4))).take 4) :=
    readBytes_eq_some (by omega)
  simp only [read_into_vec, if_pos h1, r1, r2, r3, r4]

/-- Claim C7: the Paeth predictor computes p = a + b − c in a type wider than
8 bits, the absolute distances to a, b and c, and returns a when its distance is
at most both others, else b when its distance is at most the distance of c, else
c; in particular when a = b = c it resolves to a. -/
theorem c7_paeth_matches_spec (lp : LastPixel) (i : Nat)
    (ha : lp.a.getD i 0 < 256) (hb : lp.b.getD i 0 < 256) (hc : lp.c.getD i 0 < 256) :
    LastPixel.paeth lp i = paethSpec (lp.a.getD i 0) (lp.b.getD i 0) (lp.c.getD i 0)
    ∧ (lp.a.getD i 0 = lp.b.getD i 0 → lp.b.getD i 0 = lp.c.getD i 0 →
        LastPixel.paeth lp i = lp.a.getD i 0) := by
  unfold LastPixel.paeth paethSpec
  dsimp only
  constructor
  · split_ifs <;> omega
  · intro h1 h2
    split_ifs <;> omega

/-- Witness for C7 at a = b = c = 7: the predictor agrees with the spec formula
and resolves the tie to a. -/
theorem c7_paeth_matches_spec_witness :
    LastPixel.paeth ⟨[7, 7, 7, 7], [7, 7, 7, 7], [7, 7, 7, 7], [0, 0, 0, 0]⟩ 0 = paethSpec 7 7 7
    ∧ LastPixel.paeth ⟨[7, 7, 7, 7], [7, 7, 7, 7], [7, 7, 7, 7], [0, 0, 0, 0]⟩ 0 = 7 := by
  have h := c7_paeth_matches_spec ⟨[7, 7, 7, 7], [7, 7, 7, 7], [7, 7, 7, 7], [0, 0, 0, 0]⟩ 0
    (by decide) (by decide) (by decide)
  exact ⟨h.1, h.2 rfl rfl⟩

/-- Claim C9: in the chunk loop the PLTE check runs before the CRC check, so a
PLTE chunk is rejected as an unsupported feature regardless of whether its CRC
field matches; the failed-checksum error is never produced for a PLTE chunk. -/
theorem c9_plte_checked_before_crc (bytes : List Nat) (fuel pos : Nat) (chunks : List Chunk)
    (h1 : pos < bytes.length)
    (h2 : pos + 12 + beU32 ((bytes.drop pos).take 4) ≤ bytes.length)
    (htag : (bytes.drop (pos + 4)).take 4 = [80, 76, 84, 69]) :
    read_into_vec bytes (fuel + 1) pos chunks
      = some (.error (DecodeError.UnsupportedFeature "PLTE chunks are not yet supported")) := by
  rw [read_into_vec_step bytes fuel pos chunks h1 h2]
  simp only [htag]
  rfl

/-- Witness for C9: a PLTE chunk whose stored CRC (zero) does not match the CRC-32
of its tag and empty payload is still rejected as unsupported, not as a failed
checksum. -/
theorem c9_plte_checked_before_crc_witness :
    read_into_vec [0, 0, 0, 0, 80, 76, 84, 69, 0, 0, 0, 0] 1 0 []
      = some (.error (DecodeError.UnsupportedFeature "PLTE chunks are not yet supported")) :=
  c9_plte_checked_before_crc [0, 0, 0, 0, 80, 76, 84, 69, 0, 0, 0, 0] 0 0 []
    (by decide) (by decide) (by decide)

/-- Claim C10: a chunk whose type tag is not IHDR, IDAT, IEND or PLTE is parsed
as Unknown and its CRC is validated against CRC-32 over the placeholder bytes
[97,97,97,97] concatenated with the payload, not over the actual tag; it passes
validation exactly when its stored CRC equals that placeholder checksum, and a
chunk carrying the standard CRC over its real tag is rejected whenever the two
checksums differ. -/
theorem c10_unknown_chunk_crc_uses_placeholder (tag data : List Nat) (L crcv : Nat)
    (h : ChunkType.from_bytes tag = ChunkType.Unknown) :
    (Chunk.crc_is_valid ⟨L, ChunkType.from_bytes tag, data, crcv⟩ = true
      ↔ crcv = crc32 ([97, 97, 97, 97] ++ data))
    ∧ (crcv = crc32 (tag ++ data) → crc32 (tag ++ data) ≠ crc32 ([97, 97, 97, 97] ++ data) →
        Chunk.crc_is_valid ⟨L, ChunkType.from_bytes tag, data, crcv⟩ = false) := by
  rw [h]
  constructor
  · show (crc32 (ChunkType.to_bytes ChunkType.Unknown ++ data) == crcv) = true ↔ _
    rw [beq_iff_eq]
    exact eq_comm
  · intro h1 h2
    show (crc32 (ChunkType.to_bytes ChunkType.Unknown ++ data) == crcv) = false
    rw [h1]
    exact beq_eq_false_iff_ne.mpr (Ne.symm h2)

/-- Witness for C10: the tag [97,98,99,100] is parsed as Unknown; a chunk carrying
the standard CRC-32 over that real tag fails validation. -/
theorem c10_unknown_chunk_crc_uses_placeholder_witness :
    Chunk.crc_is_valid
      ⟨0, ChunkType.from_bytes [97, 98, 99, 100], [], crc32 [97, 98, 99, 100]⟩ = false :=
  (c10_unknown_chunk_crc_uses_placeholder [97, 98, 99, 100] [] 0 (crc32 [97, 98, 99, 100])
    (by decide)).2 rfl (by decide)

/-- A buffer holding one chunk whose tag [97,98,99,101] is the tag [97,98,99,100]
with its last bit flipped, and whose stored CRC is CRC-32 over the placeholder
bytes and the empty payload. -/
def c4FlippedTagBuf : List Nat :=
  [0, 0, 0, 0] ++ [97, 98, 99, 101] ++ u32be (crc32 [97, 97, 97, 97])

set_option maxRecDepth 100000 in
/-- Counterexample for C4: the chunk of c4FlippedTagBuf carries a bit-flipped tag
and a CRC field that does not equal CRC-32 over its own 4-byte tag and payload,
yet the parse accepts it (no failed-checksum error), because validation hashes
the placeholder bytes for every unrecognized tag. -/
theorem c4_counterexample :
    read_into_vec c4FlippedTagBuf 2 0 []
      = some (.ok [⟨0, ChunkType.Unknown, [], crc32 [97, 97, 97, 97]⟩])
    ∧ crc32 [97, 97, 97, 97] ≠ crc32 ([97, 98, 99, 101] ++ []) := by
  constructor
  · rfl
  · decide

/-- Claim C4 amended: chunk validation passes exactly when the trailing crc field
equals CRC-32 over the canonical bytes of the parsed chunk type (the original tag
for IHDR, IDAT, IEND and PLTE, the placeholder [97,97,97,97] for every other tag)
concatenated with the payload; when the current chunk is not PLTE and that
comparison fails, the whole parse aborts with the failed-checksum error. -/
theorem c4_crc_checks_canonical_tag :
    (∀ c : Chunk, c.crc_is_valid = true ↔ crc32 (c.chunk_type.to_bytes ++ c.chunk_data) = c.crc)
    ∧ ∀ (bytes : List Nat) (fuel pos : Nat) (chunks : List Chunk),
        pos < bytes.length →
        pos + 12 + beU32 ((bytes.drop pos).take 4) ≤ bytes.length →
        ChunkType.from_bytes ((bytes.drop (pos + 4)).take 4) ≠ ChunkType.PLTE →
        beU32 ((bytes.drop (pos + 8 + beU32 ((bytes.drop pos).take 4))).take 4) ≠
          crc32 (ChunkType.to_bytes (ChunkType.from_bytes ((bytes.drop (pos + 4)).take 4))
            ++ (bytes.drop (pos + 8)).take (beU32 ((bytes.drop pos).take 4))) →
        read_into_vec bytes (fuel + 1) pos chunks = some (.error DecodeError.FailedChecksum) := by
  constructor
  · intro c
    show (crc32 (c.chunk_type.to_bytes ++ c.chunk_data) == c.crc) = true ↔ _
    rw [beq_iff_eq]
  · intro bytes fuel pos chunks h1 h2 hplte hcrc
    rw [read_into_vec_step bytes fuel pos chunks h1 h2]
    dsimp only
    rw [if_neg hplte, if_neg]
    show ¬(crc32 _ == _) = true
    rw [beq_iff_eq]
    exact fun heq => hcrc heq.symm

set_option maxRecDepth 100000 in
/-- Witness for C4: a recognized IDAT chunk passes validation when its crc equals
CRC-32 over its tag and payload, and a buffer whose IDAT chunk stores crc 0 is
aborted with the failed-checksum error. -/
theorem c4_crc_checks_canonical_tag_witness :
    Chunk.crc_is_valid ⟨1, ChunkType.IDAT, [0], crc32 [73, 68, 65, 84, 0]⟩ = true
    ∧ read_into_vec [0, 0, 0, 0, 73, 68, 65, 84, 0, 0, 0, 0] 1 0 []
        = some (.error DecodeError.FailedChecksum) :=
  ⟨(c4_crc_checks_canonical_tag.1 ⟨1, ChunkType.IDAT, [0], crc32 [73, 68, 65, 84, 0]⟩).mpr rfl,
   c4_crc_checks_canonical_tag.2 [0, 0, 0, 0, 73, 68, 65, 84, 0, 0, 0, 0] 0 0 []
     (by decide) (by decide) (by decide) (by decide)⟩

/-- Claim C6 amended: the chunk loop performs no bounds check against the declared
length; whenever the payload or trailing CRC of the chunk at the cursor would run
past the end of the buffer, the loop's slice indexing reads out of bounds (a Rust
panic, modelled as none) instead of returning the invalid-structure error. -/
theorem c6_oversized_length_panics (bytes : List Nat) (fuel pos : Nat) (chunks : List Chunk)
    (h1 : pos < bytes.length)
    (h2 : bytes.length < pos + 12 + beU32 ((bytes.drop pos).take 4)) :
    read_into_vec bytes (fuel + 1) pos chunks = none := by
  simp only [read_into_vec, if_pos h1]
  by_cases hc8 : pos + 8 ≤ bytes.length
  · rw [readBytes_eq_some (show pos + 4 ≤ bytes.length by omega),
      readBytes_eq_some (show pos + 4 + 4 ≤ bytes.length by omega)]
    dsimp only
    by_cases hcD : pos + 8 + beU32 ((bytes.drop pos).take 4) ≤ bytes.length
    · rw [readBytes_eq_some hcD]
      dsimp only
      rw [readBytes_eq_none (by omega)]
    · rw [readBytes_eq_none (by omega)]
  · by_cases hc4 : pos + 4 ≤ bytes.length
    · rw [readBytes_eq_some hc4, readBytes_eq_none (by omega)]
    · rw [readBytes_eq_none (by omega)]

/-- Witness for C6: a 4-byte buffer whose single chunk declares length 99. -/
theorem c6_oversized_length_panics_witness :
    read_into_vec [0, 0, 0, 99] 1 0 [] = none :=
  c6_oversized_length_panics [0, 0, 0, 99] 0 0 [] (by decide) (by decide)

/-- A 57-byte buffer with a valid signature and IHDR framing followed by a chunk
that declares a 255-byte payload although only 16 bytes remain. -/
def c6OversizedBuf : List Nat :=
  [137, 80, 78, 71, 13, 10, 26, 10] ++ [0, 0, 0, 13] ++ [73, 72, 68, 82]
    ++ List.replicate 13 0 ++ [0, 0, 0, 0]
    ++ [0, 0, 0, 255] ++ [73, 68, 65, 84] ++ List.replicate 16 0

/-- Counterexample for C6: on c6OversizedBuf the pipeline neither returns the
invalid-structure error nor any other DecodeError; it aborts abnormally (an
out-of-bounds read, modelled as none). -/
theorem c6_counterexample :
    decode_pipeline c6OversizedBuf (fun _ => none) = none
    ∧ decode_pipeline c6OversizedBuf (fun _ => none)
        ≠ some (.error DecodeError.InvalidStructure) := by
  constructor
  · rfl
  · intro h
    exact Option.noConfusion (Eq.trans (Eq.symm rfl) h)

/-- The 13-byte IHDR payload of a 1 by 1 image declaring bit depth 16, color
type 6, compression method 1, filter method 1 and interlace method 1 — every
field claim C5 says must be rejected. -/
def c5IhdrData : List Nat := [0, 0, 0, 1, 0, 0, 0, 1, 16, 6, 1, 1, 1]

/-- A structurally valid PNG buffer (correct signature, framing and chunk CRCs)
whose header declares the unsupported field values of c5IhdrData. -/
def c5BadHeaderBuf : List Nat :=
  [137, 80, 78, 71, 13, 10, 26, 10] ++ [0, 0, 0, 13] ++ [73, 72, 68, 82] ++ c5IhdrData
    ++ u32be (crc32 ([73, 72, 68, 82] ++ c5IhdrData))
    ++ [0, 0, 0, 1] ++ [73, 68, 65, 84] ++ [0] ++ u32be (crc32 ([73, 68, 65, 84, 0]))
    ++ [0, 0, 0, 0] ++ [73, 69, 78, 68] ++ u32be (crc32 [73, 69, 78, 68])

set_option maxRecDepth 1000000 in
/-- Counterexample for C5: although the header declares compression_method 1,
filter_method 1, interlace_method 1 and bit_depth 16, the pipeline runs
decompression and defiltering to completion and returns a pixel buffer — it does
not fail with the unsupported-feature error (nor any other). -/
theorem c5_counterexample :
    decode_pipeline c5BadHeaderBuf (fun _ => some [0, 1, 2, 3, 4]) = some (.ok [3, 2, 1, 4]) := by
  rfl

/-- Claim C5 amended: the header fields compression_method, filter_method and
interlace_method are never validated anywhere, and bit depth is checked only
while resolving the channel count for color types 2, 4 and 6, where any value
other than 8 or 16 fails with the invalid-structure error (not
unsupported-feature) before any pixel is defiltered; grayscale bit depth is not
checked at all, and decoding otherwise proceeds regardless of these fields. -/
theorem c5_header_fields_not_validated (md : ImageMetadata) (data : List Nat)
    (hct : md.color_type = 2 ∨ md.color_type = 4 ∨ md.color_type = 6)
    (h8 : md.bit_depth ≠ 8) (h16 : md.bit_depth ≠ 16) :
    filter_decoded_data md data = some (.error DecodeError.InvalidStructure) := by
  have hch : get_number_of_channels md = .error DecodeError.InvalidStructure := by
    unfold get_number_of_channels
    rcases hct with h | h | h <;> simp [h, h8, h16]
  unfold filter_decoded_data
  rw [hch]

/-- Witness for C5: a truecolor header with bit depth 4 stops before defiltering
with the invalid-structure error. -/
theorem c5_header_fields_not_validated_witness :
    filter_decoded_data ⟨1, 1, 4, 2, 0, 0, 0⟩ [] = some (.error DecodeError.InvalidStructure) :=
  c5_header_fields_not_validated ⟨1, 1, 4, 2, 0, 0, 0⟩ [] (Or.inl rfl) (by decide) (by decide)

/-- Counterexample for C8: a 40-byte buffer whose first 8 bytes are not the PNG
signature fails with invalid-structure (the 57-byte floor is checked first), not
with the invalid-signature kind the claim requires for buffers of any length. -/
theorem c8_counterexample :
    decode_pipeline (List.replicate 40 0) (fun _ => none)
      = some (.error DecodeError.InvalidStructure)
    ∧ DecodeError.InvalidStructure ≠ DecodeError.InvalidSignature := by
  constructor
  · rfl
  · decide

/-- Claim C8 amended: for every buffer of length at least 57 whose first 8 bytes
differ from the fixed PNG signature, decoding fails with the invalid-signature
error, regardless of the remaining content; shorter buffers fail earlier with
invalid-structure. -/
theorem c8_invalid_signature (bytes : List Nat) (inflate : List Nat → Option (List Nat))
    (hlen : 57 ≤ bytes.length)
    (hsig : bytes.take 8 ≠ [137, 80, 78, 71, 13, 10, 26, 10]) :
    decode_pipeline bytes inflate = some (.error DecodeError.InvalidSignature) := by
  have hv : validate_file bytes = .error DecodeError.InvalidSignature := by
    unfold validate_file
    rw [if_neg (by omega), if_pos hsig]
  unfold decode_pipeline
  rw [hv]

/-- Witness for C8: a 57-byte all-zero buffer fails with invalid-signature. -/
theorem c8_invalid_signature_witness :
    decode_pipeline (List.replicate 57 0) (fun _ => none)
      = some (.error DecodeError.InvalidSignature) :=
  c8_invalid_signature (List.replicate 57 0) (fun _ => none) (by decide) (by decide)

/-- Claim C1: the neighbor lookup of LastPixel::from_decoded reads whole fixed-width
4-byte canonical output pixels — here, for the second pixel of the first row, the
left neighbor a is the entire previous 4-byte output pixel at byte offset 4·(x−1),
never the source-stride bytes_per_pixel offset the claim requires (for the
grayscale images of the supported subset bytes_per_pixel is 1, yet the lookup has
no bytes_per_pixel parameter at all). -/
theorem c1_neighbor_lookup_uses_fixed_four_byte_stride :
    LastPixel.from_decoded [9, 9, 9, 9] 1 0 8
      = some ⟨[9, 9, 9, 9], [0, 0, 0, 0], [0, 0, 0, 0], [0, 0, 0, 0]⟩ := by
  rfl

/-- The 13-byte IHDR payload of the 8 by 1, bit-depth 8, grayscale
(color type 0), non-interlaced image of the end-to-end scenario of spec section 8. -/
def c2GrayIhdrData : List Nat := [0, 0, 0, 8, 0, 0, 0, 1, 8, 0, 0, 0, 0]

/-- A fully valid PNG buffer for that grayscale image: correct signature, header
framing and chunk CRCs, one IDAT chunk, and an IEND chunk. -/
def c2GrayBuf : List Nat :=
  [137, 80, 78, 71, 13, 10, 26, 10] ++ [0, 0, 0, 13] ++ [73, 72, 68, 82] ++ c2GrayIhdrData
    ++ u32be (crc32 ([73, 72, 68, 82] ++ c2GrayIhdrData))
    ++ [0, 0, 0, 1] ++ [73, 68, 65, 84] ++ [0] ++ u32be (crc32 ([73, 68, 65, 84, 0]))
    ++ [0, 0, 0, 0] ++ [73, 69, 78, 68] ++ u32be (crc32 [73, 69, 78, 68])

set_option maxRecDepth 1000000 in
/-- Claim C2 evaluated at its failing input: the valid grayscale PNG of spec
section 8, whose IDAT decompresses to the single filter-type-0 scanline
[0,10,20,30,40,50,60,70,80], does not decode to a 32-byte pixel buffer; the
pipeline aborts abnormally (pixel[2] is indexed on a 1-byte pixel slice, a Rust
panic, modelled as none). -/
theorem c2_grayscale_decode_panics :
    decode_pipeline c2GrayBuf (fun _ => some [0, 10, 20, 30, 40, 50, 60, 70, 80]) = none := by
  rfl

/-- Claim C3 evaluated at its failing input: a 2 by 1 truecolor (color type 2)
image whose single scanline [1, 0,0,0, 0,0,0] uses filter type 1. The code
synthesizes alpha 255 and reorders to BGRA before predictor addition and feeds the
result back into the predictor state, so the second pixel's alpha byte defilters
to (255 + 255) mod 256 = 254 instead of remaining 255. -/
theorem c3_synthesized_alpha_enters_predictor_state :
    filter_decoded_data ⟨2, 1, 8, 2, 0, 0, 0⟩ [1, 0, 0, 0, 0, 0, 0]
      = some (.ok [0, 0, 0, 255, 0, 0, 0, 254]) := by
  rfl

end RustyPng
